import Mathlib

/-!
Verification development for the `idanalyzer` Python client library
(`idanalyzer/idanalyzer.py`).  The library consists of four client classes
(`CoreAPI`, `DocuPass`, `Vault`, `AMLAPI`): configuration builders plus a
single blocking HTTP POST per action method.  We shallowly embed the
relevant Python functions over an explicit model of Python values
(`PyVal`), insertion-ordered dictionaries (`PyDict`), the local
filesystem (`Env`), and the HTTP layer (`HttpResponse`), and prove the
frozen specification claims about them.
-/

namespace IdAnalyzer

/-- Model of the Python values that appear in this library's
configuration maps and JSON responses: `None`, booleans, integers,
floats (modelled exactly as rationals; the library only ever compares
and stores them), strings, `bytes` objects whose contents are an ASCII
string (base64 output), lists, and dictionaries (insertion-ordered
association lists, as in Python 3.7+). -/
inductive PyVal where
  | none : PyVal
  | bool (b : Bool) : PyVal
  | int (n : Int) : PyVal
  | rat (q : Rat) : PyVal
  | str (s : String) : PyVal
  | bytes (s : String) : PyVal
  | list (l : List PyVal) : PyVal
  | dict (d : List (String × PyVal)) : PyVal

/-- A Python dictionary with string keys: an insertion-ordered
association list, as Python 3.7+ dictionaries are. -/
abbrev PyDict := List (String × PyVal)

/-- Dictionary read, `d[k]` / `d.get(k)`: the value at the first
occurrence of the key, `PyVal.none` when absent (as `dict.get`
returns `None`). -/
def dGet (d : PyDict) (k : String) : PyVal :=
  match d with
  | [] => .none
  | (k2, v) :: rest => if k2 = k then v else dGet rest k

/-- Dictionary write, `d[k] = v`: replaces the value in place when the
key is present (keeping its position, as CPython does), otherwise
appends the new key at the end (insertion order). -/
def dSet (d : PyDict) (k : String) (v : PyVal) : PyDict :=
  match d with
  | [] => [(k, v)]
  | (k2, v2) :: rest => if k2 = k then (k2, v) :: rest else (k2, v2) :: dSet rest k v

/-- Python truthiness (`bool(v)`): `None`, `False`, numeric zero, and
empty strings/bytes/lists/dicts are falsy; everything else is truthy. -/
def pyTruthy : PyVal → Bool
  | .none => false
  | .bool b => b
  | .int n => n != 0
  | .rat q => q != 0
  | .str s => s != ""
  | .bytes s => s != ""
  | .list l => !l.isEmpty
  | .dict d => !d.isEmpty

/-- Numeric view of a Python value: booleans count as 0/1 and compare
equal to numbers (`True == 1` in Python), which matters for the
`module != 1` style comparisons in `enable_authentication`. -/
def pyNum : PyVal → Option Rat
  | .bool b => some (if b then 1 else 0)
  | .int n => some n
  | .rat q => some q
  | _ => Option.none

/-- Python equality `==` as used by this library: numeric values
(bool/int/float) compare by value across types (`True == 1`); `None`,
strings and bytes compare within their own kind and are unequal to
everything else.  The source never applies `==`/`!=` to lists or
dictionaries, so those compare unequal here (unused). -/
def pyEq (a b : PyVal) : Bool :=
  match pyNum a, pyNum b with
  | some x, some y => x == y
  | _, _ =>
    match a, b with
    | .none, .none => true
    | .str s, .str t => s == t
    | .bytes s, .bytes t => s == t
    | _, _ => false

/-- Python `len` for the values this library takes lengths of
(strings, bytes, lists, dicts). -/
def pyLen : PyVal → Nat
  | .str s => s.length
  | .bytes s => s.length
  | .list l => l.length
  | .dict d => d.length
  | _ => 0

/-- Whether a value is a Python `list` (`isinstance(v, list)`). -/
def isPyList : PyVal → Bool
  | .list _ => true
  | _ => false

/-- Whether a value is a Python `dict` (`isinstance(v, dict)`). -/
def isPyDict : PyVal → Bool
  | .dict _ => true
  | _ => false

/-- Python `v is True`: identity with the singleton `True` object. -/
def pyIsTrue : PyVal → Bool
  | .bool true => true
  | _ => false

/-! ### base64 (model of `base64.b64encode`) -/

/-- The standard base64 alphabet. -/
def base64Alphabet : List Char :=
  [ 'A', 'B', 'C', 'D', 'E', 'F', 'G', 'H', 'I', 'J', 'K', 'L', 'M',
    'N', 'O', 'P', 'Q', 'R', 'S', 'T', 'U', 'V', 'W', 'X', 'Y', 'Z',
    'a', 'b', 'c', 'd', 'e', 'f', 'g', 'h', 'i', 'j', 'k', 'l', 'm',
    'n', 'o', 'p', 'q', 'r', 's', 't', 'u', 'v', 'w', 'x', 'y', 'z',
    '0', '1', '2', '3', '4', '5', '6', '7', '8', '9', '+', '/' ]

/-- The base64 digit for a 6-bit value. -/
def base64Char (n : Nat) : Char := base64Alphabet.getD (n % 64) 'A'

/-- Standard base64 encoding of a byte sequence with `=` padding
(model of `base64.b64encode`; bytes are naturals taken mod 256). -/
def base64Encode : List Nat → List Char
  | [] => []
  | [a] =>
      let a := a % 256
      [base64Char (a / 4), base64Char (a % 4 * 16), '=', '=']
  | [a, b] =>
      let a := a % 256
      let b := b % 256
      [base64Char (a / 4), base64Char (a % 4 * 16 + b / 16),
       base64Char (b % 16 * 4), '=']
  | a :: b :: c :: rest =>
      let a2 := a % 256
      let b2 := b % 256
      let c2 := c % 256
      base64Char (a2 / 4) :: base64Char (a2 % 4 * 16 + b2 / 16) ::
      base64Char (b2 % 16 * 4 + c2 / 64) :: base64Char (c2 % 64) ::
      base64Encode rest

/-- `base64.b64encode(data)` as a Python `bytes` value. -/
def b64encode (data : List Nat) : PyVal :=
  .bytes (String.mk (base64Encode data))

/-! ### Regular-expression checks

The library validates a handful of inputs with `re.search` on anchored
patterns.  `re.search` with a `^...$` pattern matches the whole string,
except that `$` (without `re.MULTILINE`) also matches just before one
trailing `'\n'`; `pyAnchored` reproduces both cases.  Python's `\d`
also covers non-ASCII Unicode digits; the claims under scrutiny only
involve ASCII inputs, where `Char.isDigit` agrees. -/

/-- Semantics of `re.search` with a pattern of the form `^...$`
(no `re.MULTILINE`): the core pattern must match the whole string, or
the whole string minus a single trailing newline. -/
def pyAnchored (core : List Char → Bool) (s : String) : Bool :=
  core s.data ||
    (match s.data.getLast? with
     | some c => c == '\n' && core s.data.dropLast
     | _ => false)

/-- A hexadecimal digit `[0-9a-fA-F]`. -/
def isHexDigitChar (c : Char) : Bool :=
  c.isDigit || ('a' ≤ c && c ≤ 'f') || ('A' ≤ c && c ≤ 'F')

/-- Core of the pattern `#(?:[0-9a-fA-F]{3}){1,2}`: a `#` followed by
exactly 3 or exactly 6 hex digits. -/
def hexColorCore (l : List Char) : Bool :=
  match l with
  | '#' :: rest =>
      (rest.length == 3 || rest.length == 6) && rest.all isHexDigitChar
  | _ => false

/-- `is_hex_color` (idanalyzer.py line 12): `re.search` of
`^#(?:[0-9a-fA-F]{3}){1,2}$`.  Note the pattern requires a leading
`#` character. -/
def is_hex_color (s : String) : Bool := pyAnchored hexColorCore s

/-- Core of the pattern `\d{4}/\d{2}/\d{2}`. -/
def dobCore (l : List Char) : Bool :=
  match l with
  | [y1, y2, y3, y4, s1, m1, m2, s2, d1, d2] =>
      y1.isDigit && y2.isDigit && y3.isDigit && y4.isDigit &&
      s1 == '/' && m1.isDigit && m2.isDigit && s2 == '/' &&
      d1.isDigit && d2.isDigit
  | _ => false

/-- The `verify_dob` date check: `re.search` of `^(\d{4}/\d{2}/\d{2})$`. -/
def matchDob (s : String) : Bool := pyAnchored dobCore s

/-- Core of the pattern `\d+-\d+`: one or more digits, a dash, one or
more digits (and nothing else). -/
def ageCore (l : List Char) : Bool :=
  let digits := l.takeWhile Char.isDigit
  let rest := l.dropWhile Char.isDigit
  !digits.isEmpty &&
    (match rest with
     | '-' :: p2 => !p2.isEmpty && p2.all Char.isDigit
     | _ => false)

/-- The `verify_age` range check: `re.search` of `^(\d+-\d+)$`. -/
def matchAge (s : String) : Bool := pyAnchored ageCore s

/-- Core of the pattern `[0-9]{4}`: exactly four ASCII digits. -/
def passcodeCore (l : List Char) : Bool :=
  match l with
  | [a, b, c, d] => a.isDigit && b.isDigit && c.isDigit && d.isDigit
  | _ => false

/-- The biometric-video passcode check: `re.search` of `^([0-9]{4})$`. -/
def matchPasscode (s : String) : Bool := pyAnchored passcodeCore s

/-! ### Environment: URL matcher and filesystem

`is_valid_url` (idanalyzer.py line 7) is an unanchored `re.search`
against a URL pattern; none of the claims depends on the exact
language of that regular expression, only on where and in which order
it is consulted, so the matcher is carried as an oracle, together with
`os.path.isfile` and the synchronous file read the library performs. -/

/-- The ambient environment of an API call: the `is_valid_url` regex
match (as a predicate), `os.path.isfile`, and reading a local file's
bytes (`open(path, "rb").read()`). -/
structure Env where
  urlmatch : String → Bool
  isfile : String → Bool
  readBytes : String → List Nat

/-! ### Image-argument classification (C1)

`CoreAPI.scan` (for each of its four image/video arguments),
`Vault.add_image` and `Vault.search_face` each classify a string
argument with the same four-way cascade; only the payload field names
differ per call site.  `classifyImage` is that cascade written once;
the per-site resolvers below are translated independently from each
source location and are then proved to implement the same cascade. -/

/-- Outcome of the four-way classification cascade shared by all
image/file arguments. -/
inductive ImageClass where
  | url : ImageClass
  | fileB64 : ImageClass
  | passthrough : ImageClass
  | invalid : ImageClass

/-- The classification cascade: (1) URL-pattern match, (2) existing
local file, (3) length over 100 characters, (4) error. -/
def classifyImage (env : Env) (s : String) : ImageClass :=
  if env.urlmatch s then .url
  else if env.isfile s then .fileB64
  else if s.length > 100 then .passthrough
  else .invalid

/-- `CoreAPI.scan`, `document_primary` block (idanalyzer.py lines
419-427): writes `url` or `file_base64` into the payload, or raises. -/
def resolveDocumentPrimary (env : Env) (payload : PyDict) (s : String) :
    Except String PyDict :=
  if env.urlmatch s then
    .ok (dSet payload "url" (.str s))
  else if env.isfile s then
    .ok (dSet payload "file_base64" (b64encode (env.readBytes s)))
  else if s.length > 100 then
    .ok (dSet payload "file_base64" (.str s))
  else
    .error "Invalid primary document image, file not found or malformed URL."

/-- `CoreAPI.scan`, `document_secondary` block (lines 430-438): writes
`url_back` or `file_back_base64`, or raises. -/
def resolveDocumentSecondary (env : Env) (payload : PyDict) (s : String) :
    Except String PyDict :=
  if env.urlmatch s then
    .ok (dSet payload "url_back" (.str s))
  else if env.isfile s then
    .ok (dSet payload "file_back_base64" (b64encode (env.readBytes s)))
  else if s.length > 100 then
    .ok (dSet payload "file_back_base64" (.str s))
  else
    .error "Invalid secondary document image, file not found or malformed URL."

/-- `CoreAPI.scan`, `biometric_photo` block (lines 441-449): writes
`faceurl` or `face_base64`, or raises. -/
def resolveBiometricPhoto (env : Env) (payload : PyDict) (s : String) :
    Except String PyDict :=
  if env.urlmatch s then
    .ok (dSet payload "faceurl" (.str s))
  else if env.isfile s then
    .ok (dSet payload "face_base64" (b64encode (env.readBytes s)))
  else if s.length > 100 then
    .ok (dSet payload "face_base64" (.str s))
  else
    .error "Invalid face image, file not found or malformed URL."

/-- `CoreAPI.scan`, `biometric_video` block (lines 452-460): writes
`videourl` or `video_base64`, or raises. -/
def resolveBiometricVideo (env : Env) (payload : PyDict) (s : String) :
    Except String PyDict :=
  if env.urlmatch s then
    .ok (dSet payload "videourl" (.str s))
  else if env.isfile s then
    .ok (dSet payload "video_base64" (b64encode (env.readBytes s)))
  else if s.length > 100 then
    .ok (dSet payload "video_base64" (.str s))
  else
    .error "Invalid face video, file not found or malformed URL."

/-- `Vault.add_image`, image block (lines 1278-1286): writes `imageurl`
or `image`, or raises. -/
def resolveVaultAddImage (env : Env) (payload : PyDict) (s : String) :
    Except String PyDict :=
  if env.urlmatch s then
    .ok (dSet payload "imageurl" (.str s))
  else if env.isfile s then
    .ok (dSet payload "image" (b64encode (env.readBytes s)))
  else if s.length > 100 then
    .ok (dSet payload "image" (.str s))
  else
    .error "Invalid image, file not found or malformed URL."

/-- `Vault.search_face`, image block (lines 1322-1330): writes
`imageurl` or `image`, or raises. -/
def resolveVaultSearchFace (env : Env) (payload : PyDict) (s : String) :
    Except String PyDict :=
  if env.urlmatch s then
    .ok (dSet payload "imageurl" (.str s))
  else if env.isfile s then
    .ok (dSet payload "image" (b64encode (env.readBytes s)))
  else if s.length > 100 then
    .ok (dSet payload "image" (.str s))
  else
    .error "Invalid image, file not found or malformed URL."

/-- What a call-site resolver does, expressed through the shared
cascade: place the string in the site's URL field, base64-encode the
file's bytes into the site's file field, pass the long string through
into the file field, or fail with the site's error message. -/
def cascadeResult (env : Env) (payload : PyDict) (s : String)
    (urlField fileField errMsg : String) : Except String PyDict :=
  match classifyImage env s with
  | .url => .ok (dSet payload urlField (.str s))
  | .fileB64 => .ok (dSet payload fileField (b64encode (env.readBytes s)))
  | .passthrough => .ok (dSet payload fileField (.str s))
  | .invalid => .error errMsg

/-! ### Module-level constants and default configurations -/

/-- `client_library` (idanalyzer.py line 20). -/
def client_library : String := "python-sdk"

/-- `CoreAPI.DEFAULT_CONFIG` (lines 31-69), the class-level dictionary
literal evaluated once at module load. -/
def coreDefaultConfig : PyDict :=
  [ ("accuracy", .int 2),
    ("authenticate", .bool false),
    ("authenticate_module", .int 1),
    ("ocr_scaledown", .int 2000),
    ("outputimage", .bool false),
    ("outputface", .bool false),
    ("outputmode", .str "url"),
    ("dualsidecheck", .bool false),
    ("verify_expiry", .bool true),
    ("verify_documentno", .str ""),
    ("verify_name", .str ""),
    ("verify_dob", .str ""),
    ("verify_age", .str ""),
    ("verify_address", .str ""),
    ("verify_postcode", .str ""),
    ("country", .str ""),
    ("region", .str ""),
    ("type", .str ""),
    ("checkblocklist", .str ""),
    ("vault_save", .bool true),
    ("vault_saveunrecognized", .str ""),
    ("vault_noduplicate", .str ""),
    ("vault_automerge", .str ""),
    ("vault_customdata1", .str ""),
    ("vault_customdata2", .str ""),
    ("vault_customdata3", .str ""),
    ("vault_customdata4", .str ""),
    ("vault_customdata5", .str ""),
    ("barcodemode", .bool false),
    ("biometric_threshold", .rat ((2 : Rat) / 5)),
    ("aml_check", .bool false),
    ("aml_strict_match", .bool false),
    ("aml_database", .str ""),
    ("contract_generate", .str ""),
    ("contract_format", .str ""),
    ("contract_prefill_data", .str ""),
    ("client", .str client_library) ]

/-- `DocuPass.DEFAULT_CONFIG` (lines 491-540), the class-level
dictionary literal evaluated once at module load. -/
def docupassDefaultConfig : PyDict :=
  [ ("companyname", .str ""),
    ("callbackurl", .str ""),
    ("biometric", .int 0),
    ("authenticate_minscore", .int 0),
    ("authenticate_module", .int 2),
    ("maxattempt", .int 1),
    ("documenttype", .str ""),
    ("documentcountry", .str ""),
    ("documentregion", .str ""),
    ("dualsidecheck", .bool false),
    ("verify_expiry", .bool false),
    ("verify_documentno", .str ""),
    ("verify_name", .str ""),
    ("verify_dob", .str ""),
    ("verify_age", .str ""),
    ("verify_address", .str ""),
    ("verify_postcode", .str ""),
    ("successredir", .str ""),
    ("failredir", .str ""),
    ("customid", .str ""),
    ("vault_save", .bool true),
    ("return_documentimage", .bool true),
    ("return_faceimage", .bool true),
    ("return_type", .int 1),
    ("qr_color", .str ""),
    ("qr_bgcolor", .str ""),
    ("qr_size", .str ""),
    ("qr_margin", .str ""),
    ("welcomemessage", .str ""),
    ("nobranding", .str ""),
    ("logo", .str ""),
    ("language", .str ""),
    ("biometric_threshold", .rat ((2 : Rat) / 5)),
    ("reusable", .bool false),
    ("aml_check", .bool false),
    ("aml_strict_match", .bool false),
    ("aml_database", .str ""),
    ("phoneverification", .bool false),
    ("verify_phone", .str ""),
    ("sms_verification_link", .str ""),
    ("customhtmlurl", .str ""),
    ("contract_generate", .str ""),
    ("contract_sign", .str ""),
    ("contract_format", .str ""),
    ("contract_prefill_data", .str ""),
    ("client", .str client_library) ]

/-! ### Constructors and endpoint selection (C7)

Each constructor checks the API key and region for emptiness, then
selects the endpoint: `region.upper() == "EU"` and `== "US"` pick the
fixed hostnames, anything else is used verbatim.  `str.upper` is
modelled by `pyUpper`; they agree on ASCII input, and all region
codes in play are ASCII. -/

/-- ASCII uppercasing of one character, as `str.upper` acts on the
ASCII range (all region codes in play are ASCII). -/
def upChar (c : Char) : Char :=
  if c.toNat ≥ 97 && c.toNat ≤ 122 then Char.ofNat (c.toNat - 32) else c

/-- `str.upper`, modelled for ASCII strings. -/
def pyUpper (s : String) : String := String.mk (s.data.map upChar)

/-- The fixed US hostname used by `CoreAPI`, `DocuPass` and `Vault`. -/
def usEndpoint : String := "https://api.idanalyzer.com/"

/-- The fixed EU hostname used by `CoreAPI`, `DocuPass` and `Vault`. -/
def euEndpoint : String := "https://api-eu.idanalyzer.com/"

/-- `CoreAPI.__init__` (lines 71-84), reduced to its validation and
endpoint selection; the configuration burden is handled separately
(the constructor binds `self.config` to the shared class dictionary
without copying). -/
def coreInitEndpoint (apikey region : String) : Except String String :=
  if apikey = "" then .error "Please provide an API key"
  else if region = "" then .error "Please set an API region (US, EU)"
  else if pyUpper region = "EU" then .ok euEndpoint
  else if pyUpper region = "US" then .ok usEndpoint
  else .ok region

/-- `DocuPass.__init__` (lines 542-558): also requires a non-empty
company name before the same endpoint selection. -/
def docupassInitEndpoint (apikey company_name region : String) :
    Except String String :=
  if apikey = "" then .error "Please provide an API key"
  else if company_name = "" then .error "Please provide your company name"
  else if region = "" then .error "Please set an API region (US, EU)"
  else if pyUpper region = "EU" then .ok euEndpoint
  else if pyUpper region = "US" then .ok usEndpoint
  else .ok region

/-- `Vault.__init__` (lines 1129-1141): same validation and endpoint
selection as `CoreAPI` (the source tests `EU` before `US` here; the
outcome is identical). -/
def vaultInitEndpoint (apikey region : String) : Except String String :=
  if apikey = "" then .error "Please provide an API key"
  else if region = "" then .error "Please set an API region (US, EU)"
  else if pyUpper region = "EU" then .ok euEndpoint
  else if pyUpper region = "US" then .ok usEndpoint
  else .ok region

/-- `AMLAPI.__init__` (lines 1385-1399): the two fixed hostnames carry
an `aml` path suffix; any other region string is used verbatim. -/
def amlInitEndpoint (apikey region : String) : Except String String :=
  if apikey = "" then .error "Please provide an API key"
  else if region = "" then .error "Please set an API region (US, EU)"
  else if pyUpper region = "EU" then .ok "https://api-eu.idanalyzer.com/aml"
  else if pyUpper region = "US" then .ok "https://api.idanalyzer.com/aml"
  else .ok region

/-! ### Configuration setters

Each setter is embedded as a function from the configuration
dictionary (and its arguments) to the dictionary contents after the
call, paired with `some message` when the call raises `ValueError`
(the dictionary component then reflects any mutations performed
before the raise).  Error messages reproduce the source texts with
quote characters elided. -/

/-- `CoreAPI.set_accuracy` (lines 100-106): unvalidated assignment. -/
def coreSetAccuracy (cfg : PyDict) (accuracy : PyVal) : PyDict × Option String :=
  (dSet cfg "accuracy" accuracy, Option.none)

/-- `CoreAPI.enable_authentication` (lines 108-122).  Note the source
assigns the `authenticate` key (`enabled is True`) before validating
the module, so the raising path leaves that assignment behind. -/
def coreEnableAuthentication (cfg : PyDict) (enabled module : PyVal) :
    PyDict × Option String :=
  let cfg1 := dSet cfg "authenticate" (.bool (pyIsTrue enabled))
  if pyTruthy enabled && !pyEq module (.int 1) && !pyEq module (.int 2) &&
      !pyEq module (.str "quick") then
    (cfg1, some "Invalid authentication module, 1, 2 or quick accepted.")
  else
    (dSet cfg1 "authenticate_module" module, Option.none)

/-- `CoreAPI.set_ocr_image_resize` (lines 124-135). -/
def coreSetOcrImageResize (cfg : PyDict) (max_scale : Int) :
    PyDict × Option String :=
  if max_scale ≠ 0 && (max_scale < 500 || max_scale > 4000) then
    (cfg, some "Invalid scale value, 0, or 500 to 4000 accepted.")
  else
    (dSet cfg "ocr_scaledown" (.int max_scale), Option.none)

/-- `CoreAPI.set_biometric_threshold` (lines 137-147). -/
def coreSetBiometricThreshold (cfg : PyDict) (threshold : Rat) :
    PyDict × Option String :=
  if threshold ≤ 0 || threshold > 1 then
    (cfg, some "Invalid threshold value, float between 0 to 1 accepted.")
  else
    (dSet cfg "biometric_threshold" (.rat threshold), Option.none)

/-- `CoreAPI.enable_image_output` (lines 149-163). -/
def coreEnableImageOutput (cfg : PyDict) (crop_document crop_face : PyVal)
    (output_format : String) : PyDict × Option String :=
  if output_format ≠ "url" && output_format ≠ "base64" then
    (cfg, some "Invalid output format, url or base64 accepted.")
  else
    (dSet (dSet (dSet cfg "outputimage" (.bool (pyIsTrue crop_document)))
        "outputface" (.bool (pyIsTrue crop_face)))
      "outputmode" (.str output_format), Option.none)

/-- `CoreAPI.verify_dob` (lines 232-245): clears on a falsy argument,
otherwise validates `^(\d{4}/\d{2}/\d{2})$` before assigning. -/
def coreVerifyDob (cfg : PyDict) (dob : String) : PyDict × Option String :=
  if dob = "" then
    (dSet cfg "verify_dob" (.str ""), Option.none)
  else if !matchDob dob then
    (cfg, some "Invalid birthday format (YYYY/MM/DD)")
  else
    (dSet cfg "verify_dob" (.str dob), Option.none)

/-- `CoreAPI.verify_age` (lines 247-260): clears on a falsy argument,
otherwise validates `^(\d+-\d+)$` before assigning. -/
def coreVerifyAge (cfg : PyDict) (age_range : String) : PyDict × Option String :=
  if age_range = "" then
    (dSet cfg "verify_age" (.str ""), Option.none)
  else if !matchAge age_range then
    (cfg, some "Invalid age range format (minAge-maxAge)")
  else
    (dSet cfg "verify_age" (.str age_range), Option.none)

/-- `CoreAPI.generate_contract` (lines 360-376): `None` prefill data
defaults to `{}`; an empty template id raises before any assignment. -/
def coreGenerateContract (cfg : PyDict) (template_id out_format : String)
    (prefill_data : PyVal) : PyDict × Option String :=
  let prefill := match prefill_data with | PyVal.none => PyVal.dict [] | p => p
  if template_id = "" then
    (cfg, some "Invalid template ID")
  else
    (dSet (dSet (dSet cfg "contract_generate" (.str template_id))
        "contract_format" (.str out_format))
      "contract_prefill_data" prefill, Option.none)

/-- `CoreAPI.reset_config` (lines 94-98): `self.config =
self.DEFAULT_CONFIG` re-binds `config` to the class-level dictionary
object.  Because `__init__` bound `config` to that same object (no
copy is ever taken anywhere in the class), the re-binding leaves the
dictionary contents untouched. -/
def coreResetConfig (cfg : PyDict) : PyDict := cfg

/-- `CoreAPI.reset_config` as the specification describes it
(restore every key to the documented class defaults); stated only to
contrast with the behaviour of the code, `coreResetConfig`. -/
def coreResetConfigSpec (_cfg : PyDict) : PyDict := coreDefaultConfig

/-- `DocuPass.set_max_attempt` (lines 574-584): `max_attempt not in
range(1, 10)` rejects everything outside `1..9`. -/
def docupassSetMaxAttempt (cfg : PyDict) (max_attempt : Int) :
    PyDict × Option String :=
  if !(1 ≤ max_attempt && max_attempt ≤ 9) then
    (cfg, some "Invalid max attempt, please specify integer between 1 to 10.")
  else
    (dSet cfg "maxattempt" (.int max_attempt), Option.none)

/-- `DocuPass.set_callback_url` (lines 636-646): a non-empty URL must
pass `is_valid_url` before assignment. -/
def docupassSetCallbackUrl (env : Env) (cfg : PyDict) (url : String) :
    PyDict × Option String :=
  if url ≠ "" && !env.urlmatch url then
    (cfg, some "Invalid URL, the host does not appear to be a remote host.")
  else
    (dSet cfg "callbackurl" (.str url), Option.none)

/-- `DocuPass.set_redirection_url` (lines 648-666): both URLs are
validated before either key is assigned. -/
def docupassSetRedirectionUrl (env : Env) (cfg : PyDict)
    (success_url fail_url : String) : PyDict × Option String :=
  if success_url ≠ "" && !env.urlmatch success_url then
    (cfg, some "Invalid URL format for success URL")
  else if fail_url ≠ "" && !env.urlmatch fail_url then
    (cfg, some "Invalid URL format for fail URL")
  else
    (dSet (dSet cfg "successredir" (.str success_url))
      "failredir" (.str fail_url), Option.none)

/-- `DocuPass.enable_authentication` (lines 668-687): with a falsy
`enabled`, only `authenticate_minscore` is zeroed; otherwise the
minimum score and the module are both validated before either key is
assigned. -/
def docupassEnableAuthentication (cfg : PyDict) (enabled module : PyVal)
    (minimum_score : Rat) : PyDict × Option String :=
  if !pyTruthy enabled then
    (dSet cfg "authenticate_minscore" (.int 0), Option.none)
  else if !(0 < minimum_score && minimum_score ≤ 1) then
    (cfg, some "Invalid minimum score, please specify float between 0 to 1.")
  else if pyTruthy enabled && !pyEq module (.int 1) && !pyEq module (.int 2) &&
      !pyEq module (.str "quick") then
    (cfg, some "Invalid authentication module, 1, 2 or quick accepted.")
  else
    (dSet (dSet cfg "authenticate_module" module)
      "authenticate_minscore" (.rat minimum_score), Option.none)

/-- `DocuPass.enable_face_verification` (lines 689-705). -/
def docupassEnableFaceVerification (cfg : PyDict) (enabled : PyVal)
    (verification_type : PyVal) (threshold : Rat) : PyDict × Option String :=
  if !pyTruthy enabled then
    (dSet cfg "biometric" (.int 0), Option.none)
  else if pyEq verification_type (.int 1) || pyEq verification_type (.int 2) then
    (dSet (dSet cfg "biometric" verification_type)
      "biometric_threshold" (.rat threshold), Option.none)
  else
    (cfg, some "Invalid verification type, 1 for photo verification, 2 for video verification.")

/-- `DocuPass.set_qrcode_format` (lines 728-753): both colors must
pass `is_hex_color`, `size` must lie in `range(1, 50)` (that is,
`1..49`) and `margin` in `range(0, 50)` (`0..49`), all before any of
the four keys is assigned. -/
def docupassSetQrcodeFormat (cfg : PyDict) (foreground_color background_color : String)
    (size margin : Int) : PyDict × Option String :=
  if !is_hex_color foreground_color then
    (cfg, some "Invalid foreground color HEX code")
  else if !is_hex_color background_color then
    (cfg, some "Invalid background color HEX code")
  else if !(1 ≤ size && size ≤ 49) then
    (cfg, some "Invalid image size (1-50)")
  else if !(0 ≤ margin && margin ≤ 49) then
    (cfg, some "Invalid margin (0-50)")
  else
    (dSet (dSet (dSet (dSet cfg "qr_color" (.str foreground_color))
        "qr_bgcolor" (.str background_color))
      "qr_size" (.int size)) "qr_margin" (.int margin), Option.none)

/-- `DocuPass.verify_dob` (lines 859-872): identical to the CoreAPI
setter. -/
def docupassVerifyDob (cfg : PyDict) (dob : String) : PyDict × Option String :=
  if dob = "" then
    (dSet cfg "verify_dob" (.str ""), Option.none)
  else if !matchDob dob then
    (cfg, some "Invalid birthday format (YYYY/MM/DD)")
  else
    (dSet cfg "verify_dob" (.str dob), Option.none)

/-- `DocuPass.verify_age` (lines 874-887): identical to the CoreAPI
setter. -/
def docupassVerifyAge (cfg : PyDict) (age_range : String) : PyDict × Option String :=
  if age_range = "" then
    (dSet cfg "verify_age" (.str ""), Option.none)
  else if !matchAge age_range then
    (cfg, some "Invalid age range format (minAge-maxAge)")
  else
    (dSet cfg "verify_age" (.str age_range), Option.none)

/-- `DocuPass.generate_contract` (lines 964-980): raises on an empty
template id before clearing `contract_sign` and assigning the three
contract keys. -/
def docupassGenerateContract (cfg : PyDict) (template_id out_format : String)
    (prefill_data : PyVal) : PyDict × Option String :=
  let prefill := match prefill_data with | PyVal.none => PyVal.dict [] | p => p
  if template_id = "" then
    (cfg, some "Invalid template ID")
  else
    (dSet (dSet (dSet (dSet cfg "contract_sign" (.str ""))
        "contract_generate" (.str template_id))
      "contract_format" (.str out_format))
      "contract_prefill_data" prefill, Option.none)

/-- `DocuPass.sign_contract` (lines 982-998): raises on an empty
template id before clearing `contract_generate` and assigning the
three contract keys. -/
def docupassSignContract (cfg : PyDict) (template_id out_format : String)
    (prefill_data : PyVal) : PyDict × Option String :=
  let prefill := match prefill_data with | PyVal.none => PyVal.dict [] | p => p
  if template_id = "" then
    (cfg, some "Invalid template ID")
  else
    (dSet (dSet (dSet (dSet cfg "contract_generate" (.str ""))
        "contract_sign" (.str template_id))
      "contract_format" (.str out_format))
      "contract_prefill_data" prefill, Option.none)

/-! ### Transport and response handling (C3, C8)

Every action method ends with the same three steps (for example
CoreAPI.scan lines 468-478, DocuPass.__create lines 1084-1094,
DocuPass.create_signature lines 1022-1032, Vault.__api lines
1362-1372, AMLAPI.__api lines 1471-1481):

    r = requests.post(endpoint, data=payload)
    r.raise_for_status()
    result = r.json()
    if not self.throw_error: return result
    if result.get('error'): raise APIError(result['error'])
    else: return result

`requests.Response.raise_for_status` raises `requests.HTTPError`
exactly when the response status code is in 400-599 (4xx client
errors and 5xx server errors); `r.json()` raises a decode error when
the body is not valid JSON.  `apiTail` is this shared tail; a network
failure would surface as an exception out of `requests.post` itself,
before this tail runs, and is outside the model. -/

/-- An HTTP response as the library observes it: the final status
code, and the JSON decoding of the body (`Option.none` when the body is
not valid JSON, in which case `r.json()` raises). -/
structure HttpResponse where
  status : Nat
  jsonBody : Option PyVal

/-- The ways an action method can fail after the POST returns:
`requests.HTTPError` from `raise_for_status`, a JSON decode error
from `r.json()`, or the library's `APIError` carrying the response's
error structure. -/
inductive CallErr where
  | valueError (msg : String) : CallErr
  | httpError (status : Nat) : CallErr
  | jsonDecodeError : CallErr
  | apiError (e : PyVal) : CallErr

/-- `result.get('error')` on the decoded JSON mapping. -/
def resultError (result : PyVal) : PyVal :=
  match result with
  | .dict d => dGet d "error"
  | _ => .none

/-- The shared response tail of every action method:
`raise_for_status`, then `r.json()`, then the throw-on-error mode
switch. -/
def apiTail (throw_error : Bool) (r : HttpResponse) : Except CallErr PyVal :=
  if 400 ≤ r.status && r.status ≤ 599 then
    .error (.httpError r.status)
  else
    match r.jsonBody with
    | Option.none => .error .jsonDecodeError
    | some result =>
      if !throw_error then
        .ok result
      else if pyTruthy (resultError result) then
        .error (.apiError (resultError result))
      else
        .ok result

/-- The network: maps a URL and a form payload to the HTTP response
(`requests.post`). -/
abbrev HttpOracle := String → PyDict → HttpResponse

/-- `Vault.__api` (lines 1356-1372): mutates the payload dictionary in
place with the API key and client tag, posts it to
`endpoint + "vault/" + action`, and runs the shared response tail.
The returned dictionary is the caller-visible final contents of the
payload object (the mutation happens before the POST, so it is
observable whether or not the call then fails). -/
def vaultApiPayload (apikey : String) (payload : PyDict) : PyDict :=
  dSet (dSet payload "apikey" (.str apikey)) "client" (.str client_library)

/-- `Vault.__api` as a complete call: payload mutation, POST, shared
tail. -/
def vaultApiCall (http : HttpOracle) (apikey endpoint : String)
    (throw_error : Bool) (action : String) (payload : PyDict) :
    Except CallErr PyVal :=
  let p := vaultApiPayload apikey payload
  apiTail throw_error (http (endpoint ++ "vault/" ++ action) p)

/-- `AMLAPI.__api` (lines 1464-1481): mutates the payload with the
configured databases, entity type, API key and client tag, posts to
the endpoint, and runs the shared response tail. -/
def amlApiCall (http : HttpOracle) (apikey endpoint : String)
    (amlDatabases amlEntityType : String) (throw_error : Bool)
    (payload : PyDict) : Except CallErr PyVal :=
  let p := dSet (dSet (dSet (dSet payload "database" (.str amlDatabases))
      "entity" (.str amlEntityType)) "apikey" (.str apikey))
    "client" (.str client_library)
  apiTail throw_error (http endpoint p)

/-! ### Vault.list (C5) -/

/-- `Vault.list` payload assembly (lines 1192-1217): a truthy `filter`
option must be a list of at most 5 statements (else `ValueError`,
before any network activity); the four remaining options fall back to
`createtime` / `DESC` / `10` / `0` when falsy or absent. -/
def vaultListPayload (filter orderby sort limit offset : PyVal) :
    Except String PyDict :=
  if pyTruthy filter && (!isPyList filter || pyLen filter > 5) then
    .error "Filter must be an array and must not exceed maximum 5 filter strings."
  else
    let payload : PyDict := if pyTruthy filter then dSet [] "filter" filter else []
    let payload := dSet payload "orderby"
      (if pyTruthy orderby then orderby else .str "createtime")
    let payload := dSet payload "sort"
      (if pyTruthy sort then sort else .str "DESC")
    let payload := dSet payload "limit"
      (if pyTruthy limit then limit else .int 10)
    let payload := dSet payload "offset"
      (if pyTruthy offset then offset else .int 0)
    .ok payload

/-- `Vault.list` as a complete call (line 1219 hands the assembled
payload to `self.__api("list", payload)`). -/
def vaultListCall (http : HttpOracle) (apikey endpoint : String)
    (throw_error : Bool) (filter orderby sort limit offset : PyVal) :
    Except CallErr PyVal :=
  match vaultListPayload filter orderby sort limit offset with
  | .error msg => .error (.valueError msg)
  | .ok payload => vaultApiCall http apikey endpoint throw_error "list" payload

/-! ### Vault.update (C10) -/

/-- `Vault.update` validation and in-place mutation (lines 1221-1242):
an empty `vault_id`, a non-dictionary `data` (including the `None`
default), or an empty dictionary each raise `ValueError` before the
network call; otherwise `data['id'] = vault_id` mutates the
caller-supplied dictionary and that same dictionary is handed to
`__api`. -/
def vaultUpdatePrepare (vault_id : String) (data : PyVal) :
    Except String PyDict :=
  if vault_id = "" then
    .error "Vault entry ID required."
  else
    match data with
    | .dict d =>
      if d.length < 1 then
        .error "Minimum one set of data required."
      else
        .ok (dSet d "id" (.str vault_id))
    | _ => .error "Data needs to be a dictionary."

/-- `Vault.update` as a complete call; on the non-raising path the
caller-visible final contents of the `data` dictionary are
`vaultApiPayload apikey (vaultUpdatePrepare ...)` because `__api`
mutates the same object before posting it. -/
def vaultUpdateCall (http : HttpOracle) (apikey endpoint : String)
    (throw_error : Bool) (vault_id : String) (data : PyVal) :
    Except CallErr PyVal :=
  match vaultUpdatePrepare vault_id data with
  | .error msg => .error (.valueError msg)
  | .ok d => vaultApiCall http apikey endpoint throw_error "update" d

/-! ### CoreAPI.scan payload assembly (C9)

`scan` (lines 387-478) sets `payload = self.config` — the payload IS
the configuration dictionary, no copy is taken — then writes the API
key and the resolved image fields into it and posts it.  Because
`self.config` is the class-level `DEFAULT_CONFIG` object (see
`coreResetConfig`), every one of these writes persists in the
configuration of this instance and of every other (present or future)
instance of the class.  `coreScanPrepare` returns the dictionary
contents after the writes, paired with `some message` when the
resolution raises `ValueError` (mutations performed before the raise
are kept, as in Python). -/

/-- The keyword arguments of `CoreAPI.scan`; `Option.none` models an
absent keyword (`options.get(...)` then returns `None`). -/
structure ScanOpts where
  document_primary : Option String
  document_secondary : Option String
  biometric_photo : Option String
  biometric_video : Option String
  biometric_video_passcode : Option String

/-- Truthiness of an optional keyword argument. -/
def optTruthy : Option String → Bool
  | Option.none => false
  | some s => s != ""

/-- The payload writes of `CoreAPI.scan` (lines 413-466), in source
order: API key, primary document (required), then the optional
secondary document, face photo, and face video with its passcode. -/
def coreScanPrepare (env : Env) (apikey : String) (cfg : PyDict)
    (opts : ScanOpts) : PyDict × Option String :=
  let p0 := dSet cfg "apikey" (.str apikey)
  if !optTruthy opts.document_primary then
    (p0, some "Primary document image required.")
  else
    match resolveDocumentPrimary env p0 (opts.document_primary.getD "") with
    | .error e => (p0, some e)
    | .ok p1 =>
      match (if optTruthy opts.document_secondary then
              resolveDocumentSecondary env p1 (opts.document_secondary.getD "")
             else .ok p1) with
      | .error e => (p1, some e)
      | .ok p2 =>
        match (if optTruthy opts.biometric_photo then
                resolveBiometricPhoto env p2 (opts.biometric_photo.getD "")
               else .ok p2) with
        | .error e => (p2, some e)
        | .ok p3 =>
          if optTruthy opts.biometric_video then
            match resolveBiometricVideo env p3 (opts.biometric_video.getD "") with
            | .error e => (p3, some e)
            | .ok p4 =>
              if !optTruthy opts.biometric_video_passcode ||
                  !matchPasscode (opts.biometric_video_passcode.getD "") then
                (p4, some "Please provide a 4 digit passcode for video biometric verification.")
              else
                (dSet p4 "passcode" (.str (opts.biometric_video_passcode.getD "")),
                 Option.none)
          else
            (p3, Option.none)

/-- `CoreAPI.scan` as a complete call: payload assembly (mutating the
shared configuration dictionary), POST of that same dictionary, and
the shared response tail.  Returns the final dictionary contents
alongside the call result. -/
def coreScanCall (http : HttpOracle) (env : Env) (apikey endpoint : String)
    (throw_error : Bool) (cfg : PyDict) (opts : ScanOpts) :
    PyDict × Except CallErr PyVal :=
  match coreScanPrepare env apikey cfg opts with
  | (p, some msg) => (p, .error (.valueError msg))
  | (p, Option.none) => (p, apiTail throw_error (http endpoint p))

/-- The binding `self.config = self.DEFAULT_CONFIG` performed by
`CoreAPI.__init__` (line 76): the new instance's configuration is the
class-level dictionary object itself, with whatever contents it has
at construction time — no copy is taken. -/
def coreInitConfig (classDict : PyDict) : PyDict := classDict

/-- A concrete environment for witnesses: exactly one string matches
the URL pattern, no local file exists. -/
def envW : Env :=
  ⟨fun s => s == "http://img.example.com/a.png", fun _ => false, fun _ => []⟩

/-- The one URL of `envW`. -/
def pW : String := "http://img.example.com/a.png"

/-- A 101-character opaque string (longer than the 100-character
passthrough threshold). -/
def qW : String := String.mk (List.replicate 101 'a')

/-! ## Theorems -/

/-- Reading back the key just written: `dGet (dSet d k v) k = v`. -/
theorem dGet_dSet_self (d : PyDict) (k : String) (v : PyVal) :
    dGet (dSet d k v) k = v := by
  induction d with
  | nil => simp [dGet, dSet]
  | cons hd tl ih =>
    obtain ⟨k2, v2⟩ := hd
    by_cases h : k2 = k <;> simp [dGet, dSet, h, ih]

/-- Writing one key leaves every other key unchanged. -/
theorem dGet_dSet_ne (d : PyDict) (k k2 : String) (v : PyVal) (h : k ≠ k2) :
    dGet (dSet d k v) k2 = dGet d k2 := by
  induction d with
  | nil => simp [dGet, dSet, h]
  | cons hd tl ih =>
    obtain ⟨k3, v3⟩ := hd
    by_cases h3 : k3 = k
    · subst h3
      simp [dGet, dSet, h]
    · simp [dGet, dSet, h3, ih]

/-- Claim C1 (confirmed): every string argument passed as an
image/file to `CoreAPI.scan` (`document_primary`,
`document_secondary`, `biometric_photo`, `biometric_video`),
`Vault.add_image`, or `Vault.search_face` is classified in the same
fixed order — (1) URL-pattern match goes into the site's URL payload
field as-is, (2) an existing local file is read and base64-encoded
into the site's file payload field, (3) a string longer than 100
characters is placed in the file payload field unchanged, (4)
otherwise `ValueError` — i.e. each call-site resolver implements the
single cascade `classifyImage`, differing only in field names and
error message. -/
theorem scan_image_classification_uniform (env : Env) (payload : PyDict) (s : String) :
    resolveDocumentPrimary env payload s =
      cascadeResult env payload s "url" "file_base64"
        "Invalid primary document image, file not found or malformed URL." ∧
    resolveDocumentSecondary env payload s =
      cascadeResult env payload s "url_back" "file_back_base64"
        "Invalid secondary document image, file not found or malformed URL." ∧
    resolveBiometricPhoto env payload s =
      cascadeResult env payload s "faceurl" "face_base64"
        "Invalid face image, file not found or malformed URL." ∧
    resolveBiometricVideo env payload s =
      cascadeResult env payload s "videourl" "video_base64"
        "Invalid face video, file not found or malformed URL." ∧
    resolveVaultAddImage env payload s =
      cascadeResult env payload s "imageurl" "image"
        "Invalid image, file not found or malformed URL." ∧
    resolveVaultSearchFace env payload s =
      cascadeResult env payload s "imageurl" "image"
        "Invalid image, file not found or malformed URL." := by
  refine ⟨?_, ?_, ?_, ?_, ?_, ?_⟩ <;>
    · simp only [resolveDocumentPrimary, resolveDocumentSecondary,
        resolveBiometricPhoto, resolveBiometricVideo, resolveVaultAddImage,
        resolveVaultSearchFace, cascadeResult, classifyImage]
      split_ifs <;> rfl

/-- Claim C2 fails as stated: `CoreAPI.enable_authentication(True, 3)`
raises `ValueError` (3 is not a valid module), yet the configuration
is not unchanged — the source assigns `config['authenticate'] = True`
before validating the module. -/
theorem enable_authentication_partial_mutation :
    (coreEnableAuthentication coreDefaultConfig (.bool true) (.int 3)).2.isSome = true ∧
    (coreEnableAuthentication coreDefaultConfig (.bool true) (.int 3)).1 ≠
      coreDefaultConfig := by
  refine ⟨rfl, fun h => ?_⟩
  have h2 : dGet (coreEnableAuthentication coreDefaultConfig (.bool true) (.int 3)).1
      "authenticate" = dGet coreDefaultConfig "authenticate" := by rw [h]
  have h3 : dGet (coreEnableAuthentication coreDefaultConfig (.bool true) (.int 3)).1
      "authenticate" = PyVal.bool true := rfl
  have h4 : dGet coreDefaultConfig "authenticate" = PyVal.bool false := rfl
  rw [h3, h4] at h2
  simp at h2

/-- Claim C2 amended (proved): every raising configuration setter of
`CoreAPI` and `DocuPass` leaves the configuration unchanged when it
raises `ValueError` — except `CoreAPI.enable_authentication`, which
writes the `authenticate` key (to `enabled is True`) before
validating the module, so its raising path leaves the configuration
with exactly that one key updated. -/
theorem setters_validate_before_assign :
    (∀ cfg max_scale, (coreSetOcrImageResize cfg max_scale).2.isSome = true →
      (coreSetOcrImageResize cfg max_scale).1 = cfg) ∧
    (∀ cfg t, (coreSetBiometricThreshold cfg t).2.isSome = true →
      (coreSetBiometricThreshold cfg t).1 = cfg) ∧
    (∀ cfg cd cf fmt, (coreEnableImageOutput cfg cd cf fmt).2.isSome = true →
      (coreEnableImageOutput cfg cd cf fmt).1 = cfg) ∧
    (∀ cfg dob, (coreVerifyDob cfg dob).2.isSome = true →
      (coreVerifyDob cfg dob).1 = cfg) ∧
    (∀ cfg age, (coreVerifyAge cfg age).2.isSome = true →
      (coreVerifyAge cfg age).1 = cfg) ∧
    (∀ cfg tid fmt pd, (coreGenerateContract cfg tid fmt pd).2.isSome = true →
      (coreGenerateContract cfg tid fmt pd).1 = cfg) ∧
    (∀ cfg m, (docupassSetMaxAttempt cfg m).2.isSome = true →
      (docupassSetMaxAttempt cfg m).1 = cfg) ∧
    (∀ env cfg url, (docupassSetCallbackUrl env cfg url).2.isSome = true →
      (docupassSetCallbackUrl env cfg url).1 = cfg) ∧
    (∀ env cfg su fu, (docupassSetRedirectionUrl env cfg su fu).2.isSome = true →
      (docupassSetRedirectionUrl env cfg su fu).1 = cfg) ∧
    (∀ cfg enabled module ms,
      (docupassEnableAuthentication cfg enabled module ms).2.isSome = true →
      (docupassEnableAuthentication cfg enabled module ms).1 = cfg) ∧
    (∀ cfg enabled vt t, (docupassEnableFaceVerification cfg enabled vt t).2.isSome = true →
      (docupassEnableFaceVerification cfg enabled vt t).1 = cfg) ∧
    (∀ cfg fg bg size margin,
      (docupassSetQrcodeFormat cfg fg bg size margin).2.isSome = true →
      (docupassSetQrcodeFormat cfg fg bg size margin).1 = cfg) ∧
    (∀ cfg dob, (docupassVerifyDob cfg dob).2.isSome = true →
      (docupassVerifyDob cfg dob).1 = cfg) ∧
    (∀ cfg age, (docupassVerifyAge cfg age).2.isSome = true →
      (docupassVerifyAge cfg age).1 = cfg) ∧
    (∀ cfg tid fmt pd, (docupassGenerateContract cfg tid fmt pd).2.isSome = true →
      (docupassGenerateContract cfg tid fmt pd).1 = cfg) ∧
    (∀ cfg tid fmt pd, (docupassSignContract cfg tid fmt pd).2.isSome = true →
      (docupassSignContract cfg tid fmt pd).1 = cfg) ∧
    (∀ cfg enabled module, (coreEnableAuthentication cfg enabled module).2.isSome = true →
      (coreEnableAuthentication cfg enabled module).1 =
        dSet cfg "authenticate" (.bool (pyIsTrue enabled))) := by
  refine ⟨?_, ?_, ?_, ?_, ?_, ?_, ?_, ?_, ?_, ?_, ?_, ?_, ?_, ?_, ?_, ?_, ?_⟩ <;>
    · intros
      first
      | (rename_i h
         simp only [coreSetOcrImageResize, coreSetBiometricThreshold,
           coreEnableImageOutput, coreVerifyDob, coreVerifyAge,
           coreGenerateContract, docupassSetMaxAttempt, docupassSetCallbackUrl,
           docupassSetRedirectionUrl, docupassEnableAuthentication,
           docupassEnableFaceVerification, docupassSetQrcodeFormat,
           docupassVerifyDob, docupassVerifyAge, docupassGenerateContract,
           docupassSignContract, coreEnableAuthentication] at h ⊢
         split_ifs at h ⊢ <;> simp_all)

/-- Witness for the amended C2: `verify_dob` with a malformed date
raises and leaves the default configuration untouched, while
`enable_authentication(True, 3)` raises and leaves exactly the
`authenticate` key written. -/
theorem setters_validate_before_assign_witness :
    (coreVerifyDob coreDefaultConfig "1990-01-01").1 = coreDefaultConfig ∧
    (coreEnableAuthentication coreDefaultConfig (.bool true) (.int 3)).1 =
      dSet coreDefaultConfig "authenticate" (.bool true) := by
  constructor
  · exact setters_validate_before_assign.2.2.2.1 coreDefaultConfig "1990-01-01" rfl
  · exact setters_validate_before_assign.2.2.2.2.2.2.2.2.2.2.2.2.2.2.2.2
      coreDefaultConfig (.bool true) (.int 3) rfl

/-- Claim C3 (confirmed): for the response tail shared by every action
method, when the throw-on-API-error flag is set (strict mode) and the
decoded JSON mapping has a truthy `error` entry, the call raises
`APIError` carrying the full error structure; when the entry is
absent or empty, or in silent mode (the default), the decoded mapping
is returned unchanged.  The final two conjuncts instantiate the
spec's concrete example (`code=5, message="bad"`), and the last shows
`Vault.__api` is this tail applied to its posted payload. -/
theorem strict_silent_mode_contract :
    (∀ result : PyDict, apiTail false ⟨200, some (.dict result)⟩ = .ok (.dict result)) ∧
    (∀ result : PyDict, pyTruthy (dGet result "error") = true →
      apiTail true ⟨200, some (.dict result)⟩ =
        .error (.apiError (dGet result "error"))) ∧
    (∀ result : PyDict, pyTruthy (dGet result "error") = false →
      apiTail true ⟨200, some (.dict result)⟩ = .ok (.dict result)) ∧
    apiTail true ⟨200, some (.dict [("error",
        .dict [("code", .int 5), ("message", .str "bad")])])⟩ =
      .error (.apiError (.dict [("code", .int 5), ("message", .str "bad")])) ∧
    apiTail false ⟨200, some (.dict [("error",
        .dict [("code", .int 5), ("message", .str "bad")])])⟩ =
      .ok (.dict [("error", .dict [("code", .int 5), ("message", .str "bad")])]) ∧
    (∀ http apikey endpoint throw_error action payload,
      vaultApiCall http apikey endpoint throw_error action payload =
        apiTail throw_error
          (http (endpoint ++ "vault/" ++ action) (vaultApiPayload apikey payload))) := by
  refine ⟨fun result => rfl, fun result h => ?_, fun result h => ?_, rfl, rfl,
    fun _ _ _ _ _ _ => rfl⟩
  · simp [apiTail, resultError, h]
  · simp [apiTail, resultError, h]

/-- Witness for C3: strict mode raises `APIError` on a response whose
`error` entry is truthy, and returns an error-free response
unchanged. -/
theorem strict_silent_mode_contract_witness :
    apiTail true ⟨200, some (.dict [("error", .str "E")])⟩ =
      .error (.apiError (.str "E")) ∧
    apiTail true ⟨200, some (.dict [("result", .int 1)])⟩ =
      .ok (.dict [("result", .int 1)]) := by
  constructor
  · exact strict_silent_mode_contract.2.1 [("error", .str "E")] rfl
  · exact strict_silent_mode_contract.2.2.1 [("result", .int 1)] rfl

/-- Claim C8 fails as stated: a final response status of 300 is not a
2xx success status, yet `raise_for_status` does not raise for it (it
raises only for 4xx/5xx), so with a JSON body the decoded mapping is
returned normally in both modes instead of propagating a
transport-level error. -/
theorem non2xx_not_always_transport_error :
    ¬(200 ≤ 300 ∧ 300 ≤ 299) ∧
    apiTail false ⟨300, some (.dict [("result", .int 1)])⟩ =
      .ok (.dict [("result", .int 1)]) ∧
    apiTail true ⟨300, some (.dict [("result", .int 1)])⟩ =
      .ok (.dict [("result", .int 1)]) := by
  exact ⟨by simp, rfl, rfl⟩

/-- Claim C8 amended (proved): a 4xx or 5xx response status always
propagates as a transport-level error (`requests.HTTPError` from
`raise_for_status`), before any JSON decoding (the body is arbitrary,
possibly not even valid JSON) and regardless of the strict/silent
mode flag — silent mode never suppresses it. -/
theorem http_error_always_propagates (throw_error : Bool) (status : Nat)
    (body : Option PyVal) (h1 : 400 ≤ status) (h2 : status ≤ 599) :
    apiTail throw_error ⟨status, body⟩ = .error (.httpError status) := by
  simp [apiTail, h1, h2]

/-- Witness for the amended C8: a 404 response propagates as an HTTP
error in strict mode even though the body decodes to an error-free
mapping. -/
theorem http_error_always_propagates_witness :
    apiTail true ⟨404, some (.dict [("result", .int 1)])⟩ =
      .error (.httpError 404) :=
  http_error_always_propagates true 404 (some (.dict [("result", .int 1)]))
    (by decide) (by decide)

/-- Claim C4 identifies a code bug: after `set_accuracy(0)` the
documented default for `accuracy` is 2, the mutated value is 0, and
`reset_config` — whose docstring promises to reset all configurations
— leaves the mutated dictionary exactly as it is, because
`self.config = self.DEFAULT_CONFIG` re-binds to the same shared
object that the setter already mutated.  The last conjunct shows the
code's result differs from the documented-reset behaviour
(`coreResetConfigSpec`). -/
theorem reset_config_does_not_restore_defaults :
    dGet coreDefaultConfig "accuracy" = .int 2 ∧
    coreResetConfig (coreSetAccuracy coreDefaultConfig (.int 0)).1 =
      (coreSetAccuracy coreDefaultConfig (.int 0)).1 ∧
    dGet (coreResetConfig (coreSetAccuracy coreDefaultConfig (.int 0)).1)
      "accuracy" = .int 0 ∧
    coreResetConfig (coreSetAccuracy coreDefaultConfig (.int 0)).1 ≠
      coreResetConfigSpec (coreSetAccuracy coreDefaultConfig (.int 0)).1 := by
  refine ⟨rfl, rfl, rfl, fun h => ?_⟩
  have h2 : dGet (coreResetConfig (coreSetAccuracy coreDefaultConfig (.int 0)).1)
      "accuracy" =
      dGet (coreResetConfigSpec (coreSetAccuracy coreDefaultConfig (.int 0)).1)
      "accuracy" := by rw [h]
  have h3 : dGet (coreResetConfig (coreSetAccuracy coreDefaultConfig (.int 0)).1)
      "accuracy" = PyVal.int 0 := rfl
  have h4 : dGet (coreResetConfigSpec (coreSetAccuracy coreDefaultConfig (.int 0)).1)
      "accuracy" = PyVal.int 2 := rfl
  rw [h3, h4] at h2
  simp at h2

/-- Claim C6 identifies a code bug: the hex-color pattern of
`is_hex_color` requires a leading `#`, so `set_qrcode_format` called
with its own documented default colors `"000000"` and `"FFFFFF"`
(no `#`) raises `ValueError` instead of accepting them, leaving the
configuration unchanged; `"#000000"` by contrast passes the check. -/
theorem qrcode_documented_defaults_rejected :
    is_hex_color "000000" = false ∧
    is_hex_color "#000000" = true ∧
    is_hex_color "#FFFFFF" = true ∧
    docupassSetQrcodeFormat docupassDefaultConfig "000000" "FFFFFF" 5 1 =
      (docupassDefaultConfig, some "Invalid foreground color HEX code") := by
  exact ⟨rfl, rfl, rfl, rfl⟩

/-- Claim C5 fails as stated: a supplied `filter` argument that is not
a list but is falsy — here the empty string — does not raise; the
payload is silently built without a filter, with the four defaults. -/
theorem nonlist_falsy_filter_not_rejected :
    isPyList (.str "") = false ∧
    vaultListPayload (.str "") PyVal.none PyVal.none PyVal.none PyVal.none =
      .ok [("orderby", .str "createtime"), ("sort", .str "DESC"),
           ("limit", .int 10), ("offset", .int 0)] := by
  exact ⟨rfl, rfl⟩

/-- Claim C5 amended (proved): `Vault.list` raises `ValueError` before
any network request whenever a truthy `filter` argument is supplied
that is not a list or has more than 5 elements (a falsy filter is
ignored); otherwise it builds the request payload from the supplied
truthy values plus the defaults `orderby="createtime"`,
`sort="DESC"`, `limit=10`, `offset=0` for absent (or falsy) options,
performing no local filtering, sorting, or pagination — supplied
values appear verbatim. -/
theorem vault_list_payload_contract (filter orderby sort limit offset : PyVal) :
    (pyTruthy filter = true → (isPyList filter = false ∨ pyLen filter > 5) →
      vaultListPayload filter orderby sort limit offset =
        .error "Filter must be an array and must not exceed maximum 5 filter strings.") ∧
    (∀ http apikey endpoint throw_error msg,
      vaultListPayload filter orderby sort limit offset = .error msg →
      vaultListCall http apikey endpoint throw_error filter orderby sort limit offset =
        .error (.valueError msg)) ∧
    (pyTruthy filter = false →
      vaultListPayload filter orderby sort limit offset =
        .ok [("orderby", if pyTruthy orderby then orderby else .str "createtime"),
             ("sort", if pyTruthy sort then sort else .str "DESC"),
             ("limit", if pyTruthy limit then limit else .int 10),
             ("offset", if pyTruthy offset then offset else .int 0)]) ∧
    (pyTruthy filter = true → isPyList filter = true → pyLen filter ≤ 5 →
      vaultListPayload filter orderby sort limit offset =
        .ok [("filter", filter),
             ("orderby", if pyTruthy orderby then orderby else .str "createtime"),
             ("sort", if pyTruthy sort then sort else .str "DESC"),
             ("limit", if pyTruthy limit then limit else .int 10),
             ("offset", if pyTruthy offset then offset else .int 0)]) := by
  refine ⟨fun ht hbad => ?_, fun http apikey endpoint te msg h => ?_,
    fun hf => ?_, fun ht hl hlen => ?_⟩
  · rcases hbad with hb | hb <;> simp [vaultListPayload, ht, hb]
  · simp [vaultListCall, h]
  · simp [vaultListPayload, hf, dSet]
  · have hlen2 : ¬ pyLen filter > 5 := by omega
    simp [vaultListPayload, ht, hl, hlen2, dSet]

/-- Witness for the amended C5: six filter statements raise before any
network call; two filter statements are passed through verbatim with
the documented defaults filled in. -/
theorem vault_list_payload_contract_witness :
    vaultListPayload
      (.list [.str "a", .str "b", .str "c", .str "d", .str "e", .str "f"])
      PyVal.none PyVal.none PyVal.none PyVal.none =
      .error "Filter must be an array and must not exceed maximum 5 filter strings." ∧
    vaultListPayload (.list [.str "a", .str "b"])
      PyVal.none PyVal.none (.int 25) PyVal.none =
      .ok [("filter", .list [.str "a", .str "b"]),
           ("orderby", .str "createtime"), ("sort", .str "DESC"),
           ("limit", .int 25), ("offset", .int 0)] := by
  constructor
  · exact (vault_list_payload_contract
      (.list [.str "a", .str "b", .str "c", .str "d", .str "e", .str "f"])
      PyVal.none PyVal.none PyVal.none PyVal.none).1 rfl (Or.inr (by decide))
  · have h := (vault_list_payload_contract (.list [.str "a", .str "b"])
      PyVal.none PyVal.none (.int 25) PyVal.none).2.2.2 rfl rfl (by decide)
    simpa using h

/-- Claim C7 fails as stated: the constructors compare
`region.upper()` against `"EU"`/`"US"`, so the mixed-case string
`"eU"` — which is none of `"US"`, `"us"`, `"EU"`, `"eu"` — also
selects the fixed EU hostname, contradicting "and only these". -/
theorem mixed_case_region_selects_hostname :
    coreInitEndpoint "key" "eU" = .ok euEndpoint ∧
    "eU" ∉ (["US", "us", "EU", "eu"] : List String) := by
  exact ⟨rfl, by decide⟩

/-- Claim C7 amended (proved): in every client constructor, any region
string whose uppercasing is `"EU"` or `"US"` (so exactly the
case-insensitive variants of the two codes) selects the corresponding
fixed provider hostname (with the `aml` path suffix for `AMLAPI`);
any other non-empty region string is used verbatim, character for
character, as the endpoint; an empty API key, an empty company name
(DocuPass), or an empty region raises `ValueError`. -/
theorem region_selection_contract (apikey company region : String)
    (hk : apikey ≠ "") (hc : company ≠ "") (hr : region ≠ "") :
    (pyUpper region = "EU" →
      coreInitEndpoint apikey region = .ok euEndpoint ∧
      docupassInitEndpoint apikey company region = .ok euEndpoint ∧
      vaultInitEndpoint apikey region = .ok euEndpoint ∧
      amlInitEndpoint apikey region = .ok "https://api-eu.idanalyzer.com/aml") ∧
    (pyUpper region = "US" →
      coreInitEndpoint apikey region = .ok usEndpoint ∧
      docupassInitEndpoint apikey company region = .ok usEndpoint ∧
      vaultInitEndpoint apikey region = .ok usEndpoint ∧
      amlInitEndpoint apikey region = .ok "https://api.idanalyzer.com/aml") ∧
    (pyUpper region ≠ "EU" → pyUpper region ≠ "US" →
      coreInitEndpoint apikey region = .ok region ∧
      docupassInitEndpoint apikey company region = .ok region ∧
      vaultInitEndpoint apikey region = .ok region ∧
      amlInitEndpoint apikey region = .ok region) ∧
    coreInitEndpoint "" region = .error "Please provide an API key" ∧
    coreInitEndpoint apikey "" = .error "Please set an API region (US, EU)" ∧
    docupassInitEndpoint apikey "" region =
      .error "Please provide your company name" ∧
    docupassInitEndpoint apikey company "" =
      .error "Please set an API region (US, EU)" ∧
    vaultInitEndpoint "" region = .error "Please provide an API key" ∧
    vaultInitEndpoint apikey "" = .error "Please set an API region (US, EU)" ∧
    amlInitEndpoint "" region = .error "Please provide an API key" ∧
    amlInitEndpoint apikey "" = .error "Please set an API region (US, EU)" := by
  refine ⟨fun he => ?_, fun hu => ?_, fun hne hnu => ?_, ?_, ?_, ?_, ?_, ?_, ?_, ?_, ?_⟩ <;>
    simp_all [coreInitEndpoint, docupassInitEndpoint, vaultInitEndpoint,
      amlInitEndpoint]

/-- Witness for the amended C7: the lowercase region `"eu"` selects
the fixed EU hostnames in all four constructors. -/
theorem region_selection_contract_witness :
    coreInitEndpoint "key" "eu" = .ok euEndpoint ∧
    docupassInitEndpoint "key" "ACME" "eu" = .ok euEndpoint ∧
    vaultInitEndpoint "key" "eu" = .ok euEndpoint ∧
    amlInitEndpoint "key" "eu" = .ok "https://api-eu.idanalyzer.com/aml" :=
  (region_selection_contract "key" "ACME" "eu" (by decide) (by decide)
    (by decide)).1 (by decide)

/-- Claim C9 (confirmed): `CoreAPI.scan` mutates the configuration
dictionary itself — `payload = self.config` takes no copy — so the
API key and resolved image fields written during one scan (here a
first scan resolving `document_primary` as a URL) remain in the
configuration; the POSTed payload of every scan is exactly the
mutated configuration; a second scan that resolves a long opaque
string still carries the stale `url` (and `apikey`) of the first; and
a subsequently constructed instance, whose `__init__` binds its
configuration to the same class-level dictionary (`coreInitConfig`),
sees all of it. -/
theorem scan_mutates_shared_config (env : Env) (cfg : PyDict) (apikey p q : String)
    (hp : p ≠ "") (hpu : env.urlmatch p = true)
    (hq : q ≠ "") (hqu : env.urlmatch q = false) (hqf : env.isfile q = false)
    (hql : q.length > 100) :
    coreScanPrepare env apikey cfg
        ⟨some p, Option.none, Option.none, Option.none, Option.none⟩ =
      (dSet (dSet cfg "apikey" (.str apikey)) "url" (.str p), Option.none) ∧
    (∀ http endpoint throw_error opts,
      (coreScanCall http env apikey endpoint throw_error cfg opts).1 =
        (coreScanPrepare env apikey cfg opts).1) ∧
    (∀ http endpoint throw_error opts,
      (coreScanPrepare env apikey cfg opts).2 = Option.none →
      (coreScanCall http env apikey endpoint throw_error cfg opts).2 =
        apiTail throw_error (http endpoint (coreScanPrepare env apikey cfg opts).1)) ∧
    coreScanPrepare env apikey
        (dSet (dSet cfg "apikey" (.str apikey)) "url" (.str p))
        ⟨some q, Option.none, Option.none, Option.none, Option.none⟩ =
      (dSet (dSet (dSet (dSet cfg "apikey" (.str apikey)) "url" (.str p))
          "apikey" (.str apikey)) "file_base64" (.str q), Option.none) ∧
    dGet (dSet (dSet (dSet (dSet cfg "apikey" (.str apikey)) "url" (.str p))
        "apikey" (.str apikey)) "file_base64" (.str q)) "url" = .str p ∧
    dGet (dSet (dSet (dSet (dSet cfg "apikey" (.str apikey)) "url" (.str p))
        "apikey" (.str apikey)) "file_base64" (.str q)) "file_base64" = .str q ∧
    dGet (dSet (dSet (dSet (dSet cfg "apikey" (.str apikey)) "url" (.str p))
        "apikey" (.str apikey)) "file_base64" (.str q)) "apikey" = .str apikey ∧
    coreInitConfig (dSet (dSet (dSet (dSet cfg "apikey" (.str apikey)) "url" (.str p))
        "apikey" (.str apikey)) "file_base64" (.str q)) =
      dSet (dSet (dSet (dSet cfg "apikey" (.str apikey)) "url" (.str p))
        "apikey" (.str apikey)) "file_base64" (.str q) := by
  refine ⟨?_, ?_, ?_, ?_, ?_, ?_, ?_, rfl⟩
  · simp [coreScanPrepare, resolveDocumentPrimary, optTruthy, hp, hpu]
  · intro http endpoint throw_error opts
    rcases hpp : coreScanPrepare env apikey cfg opts with ⟨p2, e⟩
    cases e <;> simp [coreScanCall, hpp]
  · intro http endpoint throw_error opts h
    rcases hpp : coreScanPrepare env apikey cfg opts with ⟨p2, e⟩
    rw [hpp] at h
    simp only at h
    subst h
    simp [coreScanCall, hpp]
  · simp [coreScanPrepare, resolveDocumentPrimary, optTruthy, hq, hqu, hqf, hql]
  · rw [dGet_dSet_ne _ _ _ _ (by decide), dGet_dSet_ne _ _ _ _ (by decide),
      dGet_dSet_self]
  · rw [dGet_dSet_self]
  · rw [dGet_dSet_ne _ _ _ _ (by decide), dGet_dSet_self]

/-- Witness for C9: with the concrete environment `envW`, after a
first scan resolved the URL `pW` and a second scan resolved the
101-character string `qW`, the configuration dictionary still carries
the stale `url` entry of the first scan. -/
theorem scan_mutates_shared_config_witness :
    dGet (dSet (dSet (dSet (dSet coreDefaultConfig "apikey" (.str "key1"))
        "url" (.str pW)) "apikey" (.str "key1")) "file_base64" (.str qW))
      "url" = .str pW :=
  (scan_mutates_shared_config envW coreDefaultConfig "key1" pW qW
    (by decide) (by decide) (by decide) (by decide) rfl (by decide)).2.2.2.2.1

/-- Claim C10 (confirmed): `Vault.update` mutates the caller-supplied
dictionary in place — after a non-raising call the caller's
dictionary carries `id = vault_id` plus the `apikey` and `client`
entries written by `__api` before the POST — and raises `ValueError`
before any network call when `vault_id` is empty, when `data` is not
a dictionary, or when `data` is empty. -/
theorem vault_update_mutates_caller_dict (vault_id apikey : String) (d : PyDict)
    (hv : vault_id ≠ "") (hd : 1 ≤ d.length) :
    vaultUpdatePrepare vault_id (.dict d) = .ok (dSet d "id" (.str vault_id)) ∧
    dGet (vaultApiPayload apikey (dSet d "id" (.str vault_id))) "id" =
      .str vault_id ∧
    dGet (vaultApiPayload apikey (dSet d "id" (.str vault_id))) "apikey" =
      .str apikey ∧
    dGet (vaultApiPayload apikey (dSet d "id" (.str vault_id))) "client" =
      .str client_library ∧
    (∀ http endpoint throw_error,
      vaultUpdateCall http apikey endpoint throw_error vault_id (.dict d) =
        vaultApiCall http apikey endpoint throw_error "update"
          (dSet d "id" (.str vault_id))) ∧
    vaultUpdatePrepare "" (.dict d) = .error "Vault entry ID required." ∧
    (∀ v, isPyDict v = false →
      vaultUpdatePrepare vault_id v = .error "Data needs to be a dictionary.") ∧
    vaultUpdatePrepare vault_id (.dict []) =
      .error "Minimum one set of data required." ∧
    (∀ http endpoint throw_error v msg,
      vaultUpdatePrepare vault_id v = .error msg →
      vaultUpdateCall http apikey endpoint throw_error vault_id v =
        .error (.valueError msg)) := by
  have hlen : ¬ d.length < 1 := by omega
  have hprep : vaultUpdatePrepare vault_id (.dict d) =
      .ok (dSet d "id" (.str vault_id)) := by
    simp [vaultUpdatePrepare, hv, hlen]
  refine ⟨hprep, ?_, ?_, ?_, ?_, rfl, ?_, ?_, ?_⟩
  · rw [vaultApiPayload, dGet_dSet_ne _ _ _ _ (by decide),
      dGet_dSet_ne _ _ _ _ (by decide), dGet_dSet_self]
  · rw [vaultApiPayload, dGet_dSet_ne _ _ _ _ (by decide), dGet_dSet_self]
  · rw [vaultApiPayload, dGet_dSet_self]
  · intro http endpoint throw_error
    simp [vaultUpdateCall, hprep]
  · intro v hnd
    cases v <;> simp_all [vaultUpdatePrepare, isPyDict, hv]
  · simp [vaultUpdatePrepare, hv]
  · intro http endpoint throw_error v msg h
    simp [vaultUpdateCall, h]

/-- Witness for C10: updating entry `"V1"` with one field leaves the
caller's dictionary carrying `id`, `apikey` and `client`. -/
theorem vault_update_mutates_caller_dict_witness :
    dGet (vaultApiPayload "k" (dSet [("name", .str "Jane")] "id" (.str "V1")))
      "id" = .str "V1" ∧
    dGet (vaultApiPayload "k" (dSet [("name", .str "Jane")] "id" (.str "V1")))
      "client" = .str client_library := by
  constructor
  · exact (vault_update_mutates_caller_dict "V1" "k" [("name", .str "Jane")]
      (by decide) (by decide)).2.1
  · exact (vault_update_mutates_caller_dict "V1" "k" [("name", .str "Jane")]
      (by decide) (by decide)).2.2.2.1

end IdAnalyzer
